import Mathlib

/-
  Verification of the bikini-bottom volume toolkit.

  Shallow embedding of the core library (bikinibottom/core.py) and the
  TIFF import script (tifs_to_ng.py).  Machine integers are modelled as
  Nat/Int, Python strings as List Char, Python dicts as lookup functions,
  and the external chunked-volume storage adapter as explicit state plus
  an event trace of the metadata/data operations the code performs.
-/

namespace BikiniBottom

/-! ### Basic geometric data -/

/-- A triple of natural numbers: a 3D shape, chunk size, or resolution. -/
structure Triple where
  x : Nat
  y : Nat
  z : Nat
deriving DecidableEq

/-- A triple of integers: a voxel offset, or one mesh vertex coordinate. -/
structure VecZ where
  x : Int
  y : Int
  z : Int
deriving DecidableEq

/-! ### compress_raw_cloudvolume: the chunk-copy pass (core.py lines 57-77)

The source loop is
  for x in range(0, source.shape[0] - source.chunk_size[0], source.chunk_size[0]):
    for y in range(0, source.shape[1] - source.chunk_size[1], source.chunk_size[1]):
      for z in range(0, source.shape[2] - source.chunk_size[2], source.chunk_size[2]):
        copy the chunk-sized block at (x, y, z)
followed, per axis, by a remainder slab copied only when the axis extent is
not an exact multiple of the chunk size.  Every write copies the source
voxels at the same coordinates, so the final target is fully determined by
the set of coordinates written at least once. -/

/-- The block start positions produced by the Python loop
range(0, dimSize - chunkSize, chunkSize): all multiples of chunkSize that
are strictly below dimSize - chunkSize (empty when dimSize is at most
chunkSize, matching the empty Python range for a non-positive stop). -/
def chunkStarts (dimSize chunkSize : Nat) : List Nat :=
  (List.range ((dimSize - chunkSize + chunkSize - 1) / chunkSize)).map (fun i => i * chunkSize)

/-- Whether the voxel (a, b, c) is covered by some block of the main
triple chunk loop. -/
def mainWritten (X Y Z cx cy cz a b c : Nat) : Bool :=
  ((chunkStarts X cx).any fun s => decide (s ≤ a ∧ a < s + cx)) &&
  ((chunkStarts Y cy).any fun s => decide (s ≤ b ∧ b < s + cy)) &&
  ((chunkStarts Z cz).any fun s => decide (s ≤ c ∧ c < s + cz))

/-- Whether coordinate `coord` on an axis of extent `dimSize` is covered by
that axis's remainder slab: the slab exists only when the extent is not an
exact multiple of the chunk size, and then spans
[dimSize - dimSize % chunkSize, dimSize). -/
def slabWritten (dimSize chunkSize coord : Nat) : Bool :=
  decide (dimSize % chunkSize ≠ 0 ∧ dimSize - dimSize % chunkSize ≤ coord ∧ coord < dimSize)

/-- Whether the voxel (a, b, c) of the source volume is copied to the
target at all by compress_raw_cloudvolume. -/
def copyWritten (X Y Z cx cy cz a b c : Nat) : Bool :=
  mainWritten X Y Z cx cy cz a b c || slabWritten X cx a || slabWritten Y cy b || slabWritten Z cz c

/-- The target volume produced by the copy passes, as a partial map: a
voxel holds the source value when some pass wrote it (every write copies
source to target at identical coordinates, and the jpeg encoding is
modelled as lossless) and is absent otherwise. -/
def compressTarget (src : Nat → Nat → Nat → Nat) (X Y Z cx cy cz a b c : Nat) : Option Nat :=
  if copyWritten X Y Z cx cy cz a b c then some (src a b c) else none

/-! ### compress_raw_cloudvolume: target path derivation (core.py lines 35-41)

Python strings are modelled as List Char.  str.replace(old, new) replaces
every non-overlapping occurrence of old, scanning left to right; it is
embedded with an explicit fuel argument equal to the string length (each
step consumes at least one character, so the fuel never runs out). -/

/-- Left-to-right, non-overlapping replacement of `pat` by `rep`, with
explicit fuel; embeds Python str.replace for a non-empty pattern. -/
def replaceAllAux (pat rep : List Char) : Nat → List Char → List Char
  | 0, s => s
  | _ + 1, [] => []
  | n + 1, ch :: cs =>
    if pat.length ≠ 0 ∧ (ch :: cs).take pat.length = pat then
      rep ++ replaceAllAux pat rep n ((ch :: cs).drop pat.length)
    else
      ch :: replaceAllAux pat rep n cs

/-- Python s.replace(pat, rep) for a non-empty pattern. -/
def replaceAll (pat rep s : List Char) : List Char :=
  replaceAllAux pat rep s.length s

/-- Python s.endswith(suffixChars). -/
def pyEndsWith (s suffixChars : List Char) : Bool :=
  s.drop (s.length - suffixChars.length) == suffixChars

def rawSuffixChars : List Char := ".raw.ng".toList

def ngSuffixChars : List Char := ".ng".toList

def jpegSuffixChars : List Char := ".jpeg.ng".toList

/-- The default target path computed by compress_raw_cloudvolume when
target_path is None (core.py lines 35-41): an endswith test on the source
path selects the pattern, and str.replace substitutes it. -/
def derive_target_path (sourcePath : List Char) : List Char :=
  if pyEndsWith sourcePath rawSuffixChars then
    replaceAll rawSuffixChars jpegSuffixChars sourcePath
  else if pyEndsWith sourcePath ngSuffixChars then
    replaceAll ngSuffixChars jpegSuffixChars sourcePath
  else sourcePath ++ jpegSuffixChars

/-- The derivation as the spec words it: only the TRAILING occurrence of
the suffix is replaced.  Written from the spec sentence, to be compared
with derive_target_path, which is written from the source. -/
def derive_target_path_spec (sourcePath : List Char) : List Char :=
  if pyEndsWith sourcePath rawSuffixChars then
    sourcePath.take (sourcePath.length - rawSuffixChars.length) ++ jpegSuffixChars
  else if pyEndsWith sourcePath ngSuffixChars then
    sourcePath.take (sourcePath.length - ngSuffixChars.length) ++ jpegSuffixChars
  else sourcePath ++ jpegSuffixChars

/-! ### compress_raw_cloudvolume: target metadata (core.py lines 33-51)

The function asserts the source encoding is the raw one, then builds the
target's info with CloudVolume.create_new_info. -/

/-- The metadata ("info") of a chunked volume, as used by
CloudVolume.create_new_info in core.py. -/
structure VolInfo where
  num_channels : Nat
  layer_type : String
  data_type : String
  encoding : String
  resolution : Triple
  voxel_offset : VecZ
  chunk_size : Triple
  volume_size : Triple
deriving DecidableEq

/-- The target info built by compress_raw_cloudvolume (core.py lines
34-51): fails the assertion unless the source encoding is raw, and
otherwise copies the geometric fields verbatim while hardcoding
layer_type to image and encoding to jpeg. -/
def compress_raw_target_info (source : VolInfo) : Except Unit VolInfo :=
  if source.encoding = "raw" then
    .ok { num_channels := source.num_channels
          layer_type := "image"
          data_type := source.data_type
          encoding := "jpeg"
          resolution := source.resolution
          voxel_offset := source.voxel_offset
          chunk_size := source.chunk_size
          volume_size := source.volume_size }
  else .error ()

/-! ### The chunked-volume handle, scales, and downsample_cloudvolume
(core.py lines 80-129)

A handle carries the list of registered scales (index = mip, so
available_mips = [0, ..., scales.length - 1] and
available_mips[-1] = scales.length - 1), the scales last committed to
storage, and the currently selected mip.  Resolutions are recorded in
units of the mip-0 physical resolution.  The storage adapter's add_scale
(spec section 6) appends one scale whose resolution is the given factor
times the mip-0 resolution and whose size is the mip-0 size divided by the
factor, rounding up.  Voxel data is tracked through an event trace:
the claims under verification are about which metadata and data
operations happen and in which order. -/

/-- One registered scale (mip level) of a chunked volume. -/
structure Scale where
  resolution : Triple
  size : Triple
  chunkSize : Triple
deriving DecidableEq

def defaultScale : Scale := ⟨⟨1, 1, 1⟩, ⟨0, 0, 0⟩, ⟨0, 0, 0⟩⟩

/-- The scale registered at mip `m` (defaultScale out of range; the code
would raise an IndexError there, and the theorems assume a nonempty
scale list). -/
def scaleAt (ss : List Scale) (m : Nat) : Scale :=
  (ss[m]?).getD defaultScale

/-- vol.shape at mip m (the channel axis, always of extent
num_channels, is omitted). -/
def shapeAt (ss : List Scale) (m : Nat) : Triple :=
  (scaleAt ss m).size

/-- vol.chunk_size at mip m. -/
def chunkAt (ss : List Scale) (m : Nat) : Triple :=
  (scaleAt ss m).chunkSize

/-- Ceiling division, used by the storage adapter to size a new scale. -/
def ceilDiv (a b : Nat) : Nat := (a + b - 1) / b

/-- The scale that the adapter's add_scale(factor, chunk_size=cs) appends:
resolution = factor times the mip-0 resolution, size = mip-0 size
ceil-divided by the factor, chunk size as given. -/
def mkScale (ss : List Scale) (factor cs : Triple) : Scale :=
  ⟨⟨factor.x * (scaleAt ss 0).resolution.x,
    factor.y * (scaleAt ss 0).resolution.y,
    factor.z * (scaleAt ss 0).resolution.z⟩,
   ⟨ceilDiv (scaleAt ss 0).size.x factor.x,
    ceilDiv (scaleAt ss 0).size.y factor.y,
    ceilDiv (scaleAt ss 0).size.z factor.z⟩,
   cs⟩

/-- An open chunked-volume handle: registered scales, the scales last
committed to storage, and the currently selected mip. -/
structure Vol where
  scales : List Scale
  committedScales : List Scale
  mip : Nat
deriving DecidableEq

/-- The scale that one call to downsample_cloudvolume registers, when the
handle has scales: add_scale is called at the coarsest mip
m = scales.length - 1 with factor (2^(m+1),)*3 and the chunk size of
mip m. -/
def newDownsampleScale (v : Vol) : Scale :=
  mkScale v.scales
    ⟨2 ^ (v.scales.length - 1 + 1), 2 ^ (v.scales.length - 1 + 1), 2 ^ (v.scales.length - 1 + 1)⟩
    (chunkAt v.scales (v.scales.length - 1))

/-- Metadata and data operations issued against the storage backend, in
program order. -/
inductive DsEvent where
  | addScaleEv (factor : Triple) (chunkSize : Triple) : DsEvent
  | commitInfoEv : DsEvent
  | readDataEv (mip : Nat) : DsEvent
  | writeDataEv (mip : Nat) (shape : Triple) : DsEvent
deriving DecidableEq

/-- Failures downsample_cloudvolume can raise: the ValueError for a
caller-supplied data array of the wrong shape, and the two assert
statements. -/
inductive DsError where
  | shapeMismatch (expected got : Triple) : DsError
  | assertionFailed : DsError
deriving DecidableEq

/-- The observable outcome of one downsample_cloudvolume call on an
already-open handle: the handle afterwards, the backend operations
issued, and the returned value (the downsampled data's shape when
return_downsampled_data is true) or the raised error. -/
structure DsOutcome where
  vol : Vol
  events : List DsEvent
  result : Except DsError (Option Triple)

/-- downsample_cloudvolume (core.py lines 80-129), for a caller that
passes an already-open handle (so original_mip is recorded and restored by
the finally block on every exit path).  `data` is the caller-supplied
array, tracked by its shape; `dsShape` is the shape npimage.downsample
produces from a given input shape (external array-transform capability).
The function jumps to the coarsest mip, registers the next scale, commits
the info, downloads the data if none was passed, checks the shape,
downsamples, advances the mip, runs the two asserts, writes the data at
the new mip, and in the finally block restores the caller's mip. -/
def downsample_cloudvolume (vol0 : Vol) (data : Option Triple) (returnDownsampledData : Bool)
    (dsShape : Triple → Triple) : DsOutcome :=
  let originalMip := vol0.mip
  let m := vol0.scales.length - 1
  let f : Nat := 2 ^ (m + 1)
  let cs := chunkAt vol0.scales m
  -- newDownsampleScale vol0 is, by its definition, mkScale vol0.scales ⟨f, f, f⟩ cs
  let scales1 := vol0.scales ++ [newDownsampleScale vol0]
  let readEvents : List DsEvent := match data with
    | none => [DsEvent.readDataEv m]
    | some _ => []
  let events0 := DsEvent.addScaleEv ⟨f, f, f⟩ cs :: DsEvent.commitInfoEv :: readEvents
  let d := data.getD (shapeAt scales1 m)
  if d ≠ shapeAt scales1 m then
    { vol := ⟨scales1, scales1, originalMip⟩, events := events0,
      result := .error (.shapeMismatch (shapeAt scales1 m) d) }
  else
    let dd := dsShape d
    if m + 1 ≠ scales1.length - 1 then
      { vol := ⟨scales1, scales1, originalMip⟩, events := events0,
        result := .error .assertionFailed }
    else if shapeAt scales1 (m + 1) ≠ dd then
      { vol := ⟨scales1, scales1, originalMip⟩, events := events0,
        result := .error .assertionFailed }
    else
      { vol := ⟨scales1, scales1, originalMip⟩,
        events := events0 ++ [DsEvent.writeDataEv (m + 1) dd],
        result := .ok (if returnDownsampledData then some dd else none) }

/-! ### mesh_array and mesh_cloudvolume (core.py lines 132-219)

Vertices are modelled as integer triples (the algebraic structure of the
rescaling step is what the claims are about).  The data download, the
marching-cubes extraction, and the trimesh component splitting of
mesh_array are external capabilities, represented by an `extract`
function from the chosen mip to the resulting voxel-space mesh (or the
propagated extraction failure).  mesh_array's save-versus-return branch
and mesh_cloudvolume's own control flow are embedded directly. -/

/-- A triangulated surface: vertices and triangular faces. -/
structure Mesh where
  vertices : List VecZ
  faces : List (Nat × Nat × Nat)
deriving DecidableEq

/-- An error propagated from the extraction pipeline (for example a
threshold outside the data's value range). -/
inductive MeshErr where
  | extractionFailed : MeshErr
deriving DecidableEq

/-- What mesh_cloudvolume returns: the filename when save_to_filename was
given, the (rescaled) mesh object otherwise. -/
inductive MeshCVResult where
  | savedFilename (fn : List Char) : MeshCVResult
  | meshObj (m : Mesh) : MeshCVResult
deriving DecidableEq

/-- The observable outcome of one mesh_cloudvolume call on an
already-open handle: the returned value or propagated error, the mesh
written to disk by mesh_array (with the filename), if any, and the handle
afterwards. -/
structure MeshCVOutcome where
  result : Except MeshErr MeshCVResult
  exported : Option (List Char × Mesh)
  vol : Vol

/-- Componentwise scaling of a voxel-space vertex by the volume's
physical resolution (mesh.vertices * vol.resolution). -/
def scaleVertex (r : Triple) (p : VecZ) : VecZ :=
  ⟨p.x * (r.x : Int), p.y * (r.y : Int), p.z * (r.z : Int)⟩

/-- mesh_cloudvolume (core.py lines 168-219), for a caller that passes an
already-open handle.  The mip defaults to the coarsest available one; the
handle is switched to it, the mesh is extracted (delegating to mesh_array,
which exports to save_to_filename when one is given), and the finally
block restores the caller's mip on every exit path.  With a filename the
function returns that filename and the exported mesh is the voxel-space
mesh, unscaled; without one the mesh's vertices are multiplied
componentwise by the resolution of the chosen mip and the mesh object is
returned. -/
def mesh_cloudvolume (vol0 : Vol) (mipArg : Option Nat) (saveTo : Option (List Char))
    (extract : Nat → Except MeshErr Mesh) : MeshCVOutcome :=
  let originalMip := vol0.mip
  let m := mipArg.getD (vol0.scales.length - 1)
  match extract m with
  | .error e =>
    { result := .error e, exported := none,
      vol := ⟨vol0.scales, vol0.committedScales, originalMip⟩ }
  | .ok mesh =>
    match saveTo with
    | some fn =>
      { result := .ok (.savedFilename fn), exported := some (fn, mesh),
        vol := ⟨vol0.scales, vol0.committedScales, originalMip⟩ }
    | none =>
      { result := .ok (.meshObj
          ⟨mesh.vertices.map (scaleVertex (scaleAt vol0.scales m).resolution), mesh.faces⟩),
        exported := none,
        vol := ⟨vol0.scales, vol0.committedScales, originalMip⟩ }

/-! ### push_mesh (core.py lines 222-321)

Embedded from the point where the segmentation volume has been resolved
(the image-volume branch creates or reuses the mesh subfolder volume
before this point), for a mesh passed as an in-memory object.  The
already-exists check runs before anything is uploaded; the upload is the
single backend operation of interest. -/

/-- A duck-typed mesh-like object: optional vertices attribute, optional
points attribute, faces. -/
structure MeshLike where
  vertices : Option (List VecZ)
  points : Option (List VecZ)
  faces : List (Nat × Nat × Nat)
deriving DecidableEq

/-- The resolved target segmentation volume: its path, layer type, and
the segment ids of the meshes already stored in it. -/
structure SegVol where
  cloudpath : List Char
  layer_type : String
  meshIds : List Nat
deriving DecidableEq

/-- The upload that push_mesh performs on success. -/
inductive PushEvent where
  | uploadMesh (segid : Nat) (vertices : List VecZ) (faces : List (Nat × Nat × Nat))
      (compressFlag : Bool) : PushEvent
deriving DecidableEq

/-- Failures of push_mesh: the layer-type assert, the FileExistsError
carrying its message, and the ValueError for a mesh without vertex data. -/
inductive PushError where
  | assertionFailed : PushError
  | alreadyExists (msg : List Char) : PushError
  | noVertexData : PushError
deriving DecidableEq

/-- The FileExistsError message built by core.py lines 295-297. -/
def alreadyExistsMsg (meshId : Nat) (cloudpath : List Char) : List Char :=
  ("A mesh with id ".toList) ++ (Nat.repr meshId).toList ++
    (" already exists in the volume ".toList) ++ cloudpath ++
    (". If you want to overwrite it, set overwrite=True.".toList)

/-- Uniform scaling of a vertex by the scale_by factor. -/
def scaleByFactor (s : Int) (p : VecZ) : VecZ :=
  ⟨p.x * s, p.y * s, p.z * s⟩

/-- push_mesh (core.py lines 292-318) on the resolved segmentation
volume, for an in-memory mesh object: asserts the layer type, checks for
an existing mesh with the same id unless overwrite is set, resolves the
vertices (vertices attribute first, then points), scales them by scale_by,
and uploads.  Returns the backend uploads performed (empty list never
occurs on success; an error means nothing was uploaded). -/
def push_mesh (vol : SegVol) (mesh : MeshLike) (meshId : Nat) (scale_by : Int)
    (compressFlag overwrite : Bool) : Except PushError (List PushEvent) :=
  if vol.layer_type ≠ "segmentation" then .error .assertionFailed
  else if ¬overwrite ∧ meshId ∈ vol.meshIds then
    .error (.alreadyExists (alreadyExistsMsg meshId vol.cloudpath))
  else
    match (match mesh.vertices with
           | some vs => some vs
           | none => mesh.points) with
    | none => .error .noVertexData
    | some vs =>
      .ok [PushEvent.uploadMesh meshId (vs.map (scaleByFactor scale_by)) mesh.faces compressFlag]

/-! ### tifs_to_ng.py: import metadata resolution (lines 57-92)

Python dicts are modelled extensionally as lookup functions from key to
optional JSON value; dict.update overlays the file-provided object over
the defaults key by key. -/

/-- A JSON value, as far as the metadata file needs. -/
inductive JVal where
  | str (s : List Char) : JVal
  | num (n : Int) : JVal
  | boolean (b : Bool) : JVal
  | list (l : List JVal) : JVal

/-- The default description of tifs_to_ng.py (lines 59-60, the two
adjacent string literals concatenated). -/
def defaultDescriptionChars : List Char :=
  "No description provided. Source folder name: {img_folder}".toList

/-- The hardcoded default_metadata dict of tifs_to_ng.py (lines 57-66). -/
def default_metadata : String → Option JVal := fun k =>
  if k = "owners" then some (.list [.str ("Your Name <your.email@foo.com>".toList)])
  else if k = "description" then some (.str defaultDescriptionChars)
  else if k = "voxel_size_nm" then some (.list [.num 1, .num 1, .num 1])
  else if k = "encoding" then some (.str ("jpeg".toList))
  else if k = "chunk_size" then some (.list [.num 128, .num 128, .num 128])
  else if k = "invert" then some (.boolean false)
  else if k = "num_mips" then some (.num 3)
  else none

/-- Python d.update(u), observed through lookups: keys present in u win,
absent keys fall back to d. -/
def dictUpdate (d u : String → Option JVal) : String → Option JVal :=
  fun k => (u k).elim (d k) some

def placeholderChars : List Char := "{img_folder}".toList

/-- The text appended to a description missing the placeholder
(tifs_to_ng.py line 90). -/
def appendedChars : List Char := " Source folder name: {img_folder}".toList

/-- Python `pat in s` for strings: pat occurs as a contiguous substring. -/
def containsSub (pat s : List Char) : Bool :=
  (List.range (s.length + 1)).any fun i => (s.drop i).take pat.length == pat

/-- The metadata resolution of tifs_to_ng.py lines 80-90: start from the
defaults, overlay the file-provided JSON object if a file was found (a
missing file only prints a warning), then, if the resolved description
does not contain the placeholder token, append the placeholder text to
it.  The error case is Python's TypeError when a file overrides
description with a non-string (the `in` test then fails). -/
def tifs_metadata (fileMeta : Option (String → Option JVal)) :
    Except Unit (String → Option JVal) :=
  let m := match fileMeta with
    | none => default_metadata
    | some fm => dictUpdate default_metadata fm
  match m "description" with
  | some (.str d) =>
    .ok (if containsSub placeholderChars d then m
         else fun k => if k = "description" then some (.str (d ++ appendedChars)) else m k)
  | _ => .error ()

/-- Whether the file-provided metadata leaves description a string (the
only case in which the code runs without a TypeError). -/
def descrOk (fm : String → Option JVal) : Bool :=
  match fm "description" with
  | none => true
  | some (.str _) => true
  | some _ => false

/-- The description after the defaults/file merge, before the
placeholder fix-up. -/
def mergedDescription (fm : String → Option JVal) : List Char :=
  match fm "description" with
  | some (.str s) => s
  | _ => defaultDescriptionChars

/-! ### Concrete sample data used by the witness theorems -/

def sampleScale : Scale := ⟨⟨1, 1, 1⟩, ⟨4, 4, 4⟩, ⟨2, 2, 2⟩⟩

def sampleVol : Vol := ⟨[sampleScale], [sampleScale], 0⟩

def sampleMesh : Mesh := ⟨[⟨1, 2, 3⟩], [(0, 1, 2)]⟩

def sampleExtract : Nat → Except MeshErr Mesh := fun _ => .ok sampleMesh

def sampleSegVol : SegVol := ⟨"file://vol".toList, "segmentation", [42]⟩

def sampleMeshLike : MeshLike := ⟨some [⟨1, 0, 0⟩], none, [(0, 1, 2)]⟩

def sampleFileMeta : String → Option JVal := fun k =>
  if k = "chunk_size" then some (.list [.num 64, .num 64, .num 64])
  else if k = "description" then some (.str ("My dataset.".toList))
  else none

def sampleRawInfo : VolInfo :=
  ⟨1, "segmentation", "uint8", "raw", ⟨4, 4, 40⟩, ⟨0, 0, 0⟩, ⟨128, 128, 128⟩, ⟨256, 256, 256⟩⟩

/-! ### Helper lemmas -/

theorem chunkStarts_eq_nil_of_lt (d c : Nat) (h : d < c) : chunkStarts d c = [] := by
  unfold chunkStarts
  have h1 : d - c = 0 := Nat.sub_eq_zero_of_le h.le
  have h2 : (d - c + c - 1) / c = 0 := by
    apply Nat.div_eq_of_lt
    omega
  rw [h2]
  rfl

theorem slabWritten_true_of_small (d c k : Nat) (h0 : 0 < d) (hdc : d < c) (hk : k < d) :
    slabWritten d c k = true := by
  have hm : d % c = d := Nat.mod_eq_of_lt hdc
  simp only [slabWritten, hm, decide_eq_true_eq]
  omega

theorem replaceAllAux_nil (pat rep : List Char) (fuel : Nat) :
    replaceAllAux pat rep fuel [] = [] := by
  cases fuel <;> rfl

theorem replaceAllAux_tail_only (pat rep : List Char) (hp : pat ≠ []) :
    ∀ (u : List Char) (fuel : Nat), (u ++ pat).length ≤ fuel →
      (∀ i, i < u.length → ((u ++ pat).drop i).take pat.length ≠ pat) →
      replaceAllAux pat rep fuel (u ++ pat) = u ++ rep := by
  intro u
  induction u with
  | nil =>
    intro fuel hf _h
    simp only [List.nil_append] at hf ⊢
    obtain ⟨ph, pt, rfl⟩ : ∃ ph pt, pat = ph :: pt := by
      cases pat with
      | nil => exact absurd rfl hp
      | cons a l => exact ⟨a, l, rfl⟩
    cases fuel with
    | zero => simp at hf
    | succ n =>
      simp only [replaceAllAux]
      rw [if_pos ⟨by simp, by rw [List.take_length]⟩]
      rw [List.drop_length, replaceAllAux_nil, List.append_nil]
  | cons a u ih =>
    intro fuel hf h
    cases fuel with
    | zero => simp at hf
    | succ n =>
      have h0 : (((a :: u) ++ pat).drop 0).take pat.length ≠ pat := h 0 (by simp)
      simp only [List.drop_zero, List.cons_append] at h0
      simp only [List.cons_append, replaceAllAux]
      rw [if_neg (by rintro ⟨-, htake⟩; exact h0 htake)]
      have hrec : replaceAllAux pat rep n (u ++ pat) = u ++ rep := by
        apply ih n
        · simp only [List.cons_append, List.length_cons] at hf
          omega
        · intro i hi
          have hnext := h (i + 1) (by simp only [List.length_cons]; omega)
          simpa [List.cons_append, List.drop_succ_cons] using hnext
      exact congrArg (fun t => a :: t) hrec

theorem replaceAll_tail_only (pat rep u : List Char) (hp : pat ≠ [])
    (h : ∀ i, i < u.length → ((u ++ pat).drop i).take pat.length ≠ pat) :
    replaceAll pat rep (u ++ pat) = u ++ rep :=
  replaceAllAux_tail_only pat rep hp u (u ++ pat).length le_rfl h

theorem pyEndsWith_append (u p : List Char) : pyEndsWith (u ++ p) p = true := by
  unfold pyEndsWith
  have h : (u ++ p).length - p.length = u.length := by
    simp [List.length_append]
  rw [h, List.drop_left]
  simp

theorem scaleAt_append_lt (ss ts : List Scale) (m : Nat) (hm : m < ss.length) :
    scaleAt (ss ++ ts) m = scaleAt ss m := by
  unfold scaleAt
  rw [List.getElem?_append_left hm]

theorem downsample_vol_eq (v : Vol) (data : Option Triple) (r : Bool)
    (dsShape : Triple → Triple) :
    (downsample_cloudvolume v data r dsShape).vol =
      ⟨v.scales ++ [newDownsampleScale v], v.scales ++ [newDownsampleScale v], v.mip⟩ := by
  simp only [downsample_cloudvolume]
  split
  · rfl
  · split
    · rfl
    · split
      · rfl
      · rfl

theorem mesh_cloudvolume_vol_eq (v : Vol) (mipArg : Option Nat) (saveTo : Option (List Char))
    (extract : Nat → Except MeshErr Mesh) :
    (mesh_cloudvolume v mipArg saveTo extract).vol =
      ⟨v.scales, v.committedScales, v.mip⟩ := by
  simp only [mesh_cloudvolume]
  rcases hx : extract (mipArg.getD (v.scales.length - 1)) with e | mesh
  · rfl
  · cases saveTo with
    | none => rfl
    | some fn => rfl

theorem containsSub_of_drop_take (pat s : List Char) (i : Nat) (hi : i ≤ s.length)
    (h : (s.drop i).take pat.length = pat) : containsSub pat s = true := by
  simp only [containsSub, List.any_eq_true, List.mem_range]
  exact ⟨i, by omega, by simpa using h⟩

theorem containsSub_append_appended (d : List Char) :
    containsSub placeholderChars (d ++ appendedChars) = true := by
  apply containsSub_of_drop_take placeholderChars (d ++ appendedChars) (d.length + 21)
  · have hlen : appendedChars.length = 33 := by decide
    rw [List.length_append, hlen]
    omega
  · have h1 : (d ++ appendedChars).drop (d.length + 21) = appendedChars.drop 21 := by
      rw [← List.drop_drop, List.drop_left]
    rw [h1]
    decide

/-! ### Claim theorems -/

/-- C1: the claim that for exact-multiple volumes every voxel of the
source is copied to the target is refuted by the code.  For a source of
shape (2,2,2) with chunk size (2,2,2) the chunk loop
range(0, shape - chunk, chunk) is empty and the remainder pass never
fires (shape mod chunk = 0 on every axis), so no voxel at all is copied:
the target has no value even at voxel (1,1,1) (nor at (0,0,0)). -/
theorem compress_raw_exact_multiple_gap :
    chunkStarts 2 2 = [] ∧
    copyWritten 2 2 2 2 2 2 0 0 0 = false ∧
    copyWritten 2 2 2 2 2 2 1 1 1 = false ∧
    ∀ src : Nat → Nat → Nat → Nat, compressTarget src 2 2 2 2 2 2 1 1 1 = none := by
  refine ⟨by decide, by decide, by decide, fun src => ?_⟩
  have h : copyWritten 2 2 2 2 2 2 1 1 1 = false := by decide
  simp [compressTarget, h]

/-- C9: when every axis extent is positive and strictly below its chunk
size, the chunk-aligned loop of compress_raw_cloudvolume performs zero
iterations, each of the three per-axis remainder slabs spans the entire
volume, and hence every voxel of the volume is copied (written once per
axis), and the target equals the source everywhere. -/
theorem compress_raw_small_volume_covered (X Y Z cx cy cz : Nat)
    (hX : 0 < X) (hXc : X < cx) (hY : 0 < Y) (hYc : Y < cy) (hZ : 0 < Z) (hZc : Z < cz) :
    chunkStarts X cx = [] ∧ chunkStarts Y cy = [] ∧ chunkStarts Z cz = [] ∧
    ∀ a b c, a < X → b < Y → c < Z →
      mainWritten X Y Z cx cy cz a b c = false ∧
      slabWritten X cx a = true ∧ slabWritten Y cy b = true ∧ slabWritten Z cz c = true ∧
      ∀ src : Nat → Nat → Nat → Nat,
        compressTarget src X Y Z cx cy cz a b c = some (src a b c) := by
  refine ⟨chunkStarts_eq_nil_of_lt X cx hXc, chunkStarts_eq_nil_of_lt Y cy hYc,
    chunkStarts_eq_nil_of_lt Z cz hZc, ?_⟩
  intro a b c ha hb hc
  have hmain : mainWritten X Y Z cx cy cz a b c = false := by
    simp [mainWritten, chunkStarts_eq_nil_of_lt X cx hXc]
  have hsx := slabWritten_true_of_small X cx a hX hXc ha
  have hsy := slabWritten_true_of_small Y cy b hY hYc hb
  have hsz := slabWritten_true_of_small Z cz c hZ hZc hc
  refine ⟨hmain, hsx, hsy, hsz, fun src => ?_⟩
  have hcw : copyWritten X Y Z cx cy cz a b c = true := by
    simp [copyWritten, hsx]
  simp [compressTarget, hcw]

/-- Witness for C9 at the concrete instance X = Y = Z = 1, chunk size 2. -/
theorem compress_raw_small_volume_covered_witness :
    (0 < 1 ∧ (1:Nat) < 2) ∧
    (chunkStarts 1 2 = [] ∧ chunkStarts 1 2 = [] ∧ chunkStarts 1 2 = [] ∧
     ∀ a b c, a < 1 → b < 1 → c < 1 →
       mainWritten 1 1 1 2 2 2 a b c = false ∧
       slabWritten 1 2 a = true ∧ slabWritten 1 2 b = true ∧ slabWritten 1 2 c = true ∧
       ∀ src : Nat → Nat → Nat → Nat,
         compressTarget src 1 1 1 2 2 2 a b c = some (src a b c)) :=
  ⟨by decide, compress_raw_small_volume_covered 1 1 1 2 2 2 (by decide) (by decide) (by decide)
    (by decide) (by decide) (by decide)⟩

/-- C5 counterexample: the claim says the derived target path equals the
source path with only its trailing suffix changed, but str.replace
substitutes every occurrence.  On the source path a.ng.ng the code yields
a.jpeg.ng.jpeg.ng, not the trailing-only a.ng.jpeg.ng. -/
theorem derive_target_path_not_trailing_only :
    derive_target_path ("a.ng.ng".toList) ≠ derive_target_path_spec ("a.ng.ng".toList) ∧
    derive_target_path ("a.ng.ng".toList) = "a.jpeg.ng.jpeg.ng".toList ∧
    derive_target_path_spec ("a.ng.ng".toList) = "a.ng.jpeg.ng".toList := by
  refine ⟨by decide, by decide, by decide⟩

/-- C5 (amended): the derived path replaces every occurrence of the
matched suffix (.raw.ng when the path ends with it, else .ng when the
path ends with it) with .jpeg.ng, else appends .jpeg.ng; in particular,
when the matched suffix occurs in the source path only as its trailing
suffix, the derived path equals the source path with only that trailing
suffix changed. -/
theorem derive_target_path_trailing_occurrence (u v w : List Char)
    (hu : ∀ i, i < u.length →
      ((u ++ rawSuffixChars).drop i).take rawSuffixChars.length ≠ rawSuffixChars)
    (hv1 : pyEndsWith (v ++ ngSuffixChars) rawSuffixChars = false)
    (hv2 : ∀ i, i < v.length →
      ((v ++ ngSuffixChars).drop i).take ngSuffixChars.length ≠ ngSuffixChars)
    (hw1 : pyEndsWith w rawSuffixChars = false)
    (hw2 : pyEndsWith w ngSuffixChars = false) :
    derive_target_path (u ++ rawSuffixChars) = u ++ jpegSuffixChars ∧
    derive_target_path (v ++ ngSuffixChars) = v ++ jpegSuffixChars ∧
    derive_target_path w = w ++ jpegSuffixChars := by
  refine ⟨?_, ?_, ?_⟩
  · unfold derive_target_path
    rw [if_pos (pyEndsWith_append u rawSuffixChars)]
    exact replaceAll_tail_only rawSuffixChars jpegSuffixChars u (by decide) hu
  · unfold derive_target_path
    rw [if_neg (by simp [hv1]), if_pos (pyEndsWith_append v ngSuffixChars)]
    exact replaceAll_tail_only ngSuffixChars jpegSuffixChars v (by decide) hv2
  · unfold derive_target_path
    rw [if_neg (by simp [hw1]), if_neg (by simp [hw2])]

/-- Witness for the amended C5 at concrete paths vol.raw.ng, img.ng and
data. -/
theorem derive_target_path_trailing_occurrence_witness :
    ((∀ i, i < ("vol".toList).length →
        ((("vol".toList) ++ rawSuffixChars).drop i).take rawSuffixChars.length ≠ rawSuffixChars) ∧
      pyEndsWith (("img".toList) ++ ngSuffixChars) rawSuffixChars = false ∧
      (∀ i, i < ("img".toList).length →
        ((("img".toList) ++ ngSuffixChars).drop i).take ngSuffixChars.length ≠ ngSuffixChars) ∧
      pyEndsWith ("data".toList) rawSuffixChars = false ∧
      pyEndsWith ("data".toList) ngSuffixChars = false) ∧
    (derive_target_path (("vol".toList) ++ rawSuffixChars) = ("vol".toList) ++ jpegSuffixChars ∧
     derive_target_path (("img".toList) ++ ngSuffixChars) = ("img".toList) ++ jpegSuffixChars ∧
     derive_target_path ("data".toList) = ("data".toList) ++ jpegSuffixChars) :=
  ⟨⟨by decide, by decide, by decide, by decide, by decide⟩,
   derive_target_path_trailing_occurrence ("vol".toList) ("img".toList) ("data".toList)
     (by decide) (by decide) (by decide) (by decide) (by decide)⟩

/-- C2: calling downsample_cloudvolume with a caller-supplied data array
whose shape differs from the pre-registration coarsest mip's shape raises
the ValueError, no voxel data is written at the new mip (no write event is
issued at all), and yet the new scale is already registered and committed
in the volume's metadata when the error is raised. -/
theorem downsample_shape_mismatch_partial (v : Vol) (d : Triple) (r : Bool)
    (dsShape : Triple → Triple) (hs : v.scales ≠ [])
    (hd : d ≠ shapeAt v.scales (v.scales.length - 1)) :
    (downsample_cloudvolume v (some d) r dsShape).result =
      .error (.shapeMismatch (shapeAt v.scales (v.scales.length - 1)) d) ∧
    (∀ mw sh, DsEvent.writeDataEv mw sh ∉ (downsample_cloudvolume v (some d) r dsShape).events) ∧
    (downsample_cloudvolume v (some d) r dsShape).vol.scales =
      v.scales ++ [newDownsampleScale v] ∧
    (downsample_cloudvolume v (some d) r dsShape).vol.committedScales =
      v.scales ++ [newDownsampleScale v] := by
  have hlen : 0 < v.scales.length := List.length_pos.mpr hs
  have hm : v.scales.length - 1 < v.scales.length := by omega
  have hsh : shapeAt (v.scales ++ [newDownsampleScale v]) (v.scales.length - 1) =
      shapeAt v.scales (v.scales.length - 1) :=
    congrArg Scale.size (scaleAt_append_lt v.scales [newDownsampleScale v] _ hm)
  have hd2 : ¬(d = shapeAt (v.scales ++ [newDownsampleScale v]) (v.scales.length - 1)) := by
    rw [hsh]
    exact hd
  have heq : downsample_cloudvolume v (some d) r dsShape =
      { vol := ⟨v.scales ++ [newDownsampleScale v], v.scales ++ [newDownsampleScale v], v.mip⟩,
        events := [
          DsEvent.addScaleEv
            ⟨2 ^ (v.scales.length - 1 + 1), 2 ^ (v.scales.length - 1 + 1),
              2 ^ (v.scales.length - 1 + 1)⟩
            (chunkAt v.scales (v.scales.length - 1)),
          DsEvent.commitInfoEv],
        result := .error (.shapeMismatch
          (shapeAt (v.scales ++ [newDownsampleScale v]) (v.scales.length - 1)) d) } := by
    simp only [downsample_cloudvolume, Option.getD_some]
    rw [if_pos hd2]
  refine ⟨?_, ?_, ?_, ?_⟩
  · rw [heq, hsh]
  · intro mw sh hmem
    rw [heq] at hmem
    simp at hmem
  · rw [heq]
  · rw [heq]

/-- Witness for C2 at a concrete one-mip volume and the wrong shape
(3,3,3). -/
theorem downsample_shape_mismatch_partial_witness :
    (sampleVol.scales ≠ [] ∧
      (⟨3, 3, 3⟩ : Triple) ≠ shapeAt sampleVol.scales (sampleVol.scales.length - 1)) ∧
    ((downsample_cloudvolume sampleVol (some ⟨3, 3, 3⟩) false id).result =
        .error (.shapeMismatch (shapeAt sampleVol.scales (sampleVol.scales.length - 1)) ⟨3, 3, 3⟩) ∧
      (∀ mw sh, DsEvent.writeDataEv mw sh ∉
        (downsample_cloudvolume sampleVol (some ⟨3, 3, 3⟩) false id).events) ∧
      (downsample_cloudvolume sampleVol (some ⟨3, 3, 3⟩) false id).vol.scales =
        sampleVol.scales ++ [newDownsampleScale sampleVol] ∧
      (downsample_cloudvolume sampleVol (some ⟨3, 3, 3⟩) false id).vol.committedScales =
        sampleVol.scales ++ [newDownsampleScale sampleVol]) :=
  ⟨⟨by decide, by decide⟩,
    downsample_shape_mismatch_partial sampleVol ⟨3, 3, 3⟩ false id (by decide) (by decide)⟩

/-- C3: when the caller passes an already-open handle, both
downsample_cloudvolume and mesh_cloudvolume leave the handle's selected
mip exactly as it was, on every exit path (the shape-mismatch error, the
assertion failures, and the extraction error included), even though both
switch the handle to a different mip internally. -/
theorem handle_mip_always_restored (v : Vol) (data : Option Triple) (r : Bool)
    (dsShape : Triple → Triple) (mipArg : Option Nat) (saveTo : Option (List Char))
    (extract : Nat → Except MeshErr Mesh) :
    (downsample_cloudvolume v data r dsShape).vol.mip = v.mip ∧
    (mesh_cloudvolume v mipArg saveTo extract).vol.mip = v.mip := by
  constructor
  · rw [downsample_vol_eq]
  · rw [mesh_cloudvolume_vol_eq]

/-- C4: every downsample_cloudvolume call works from the coarsest
registered mip m = available_mips[-1] = scales.length - 1: it registers
exactly one new scale, at factor 2^(m+1) (so resolution 2^(m+1) times the
mip-0 resolution) on all three axes and with the chunk size of mip m,
commits the metadata immediately, and only after the commit reads data
(at mip m, when none was passed) or writes data (at the new mip m+1). -/
theorem downsample_registers_and_orders (v : Vol) (data : Option Triple) (r : Bool)
    (dsShape : Triple → Triple) (hs : v.scales ≠ []) :
    (downsample_cloudvolume v data r dsShape).vol.scales =
      v.scales ++ [newDownsampleScale v] ∧
    (downsample_cloudvolume v data r dsShape).vol.committedScales =
      v.scales ++ [newDownsampleScale v] ∧
    (newDownsampleScale v).chunkSize = chunkAt v.scales (v.scales.length - 1) ∧
    (newDownsampleScale v).resolution =
      ⟨2 ^ v.scales.length * (scaleAt v.scales 0).resolution.x,
        2 ^ v.scales.length * (scaleAt v.scales 0).resolution.y,
        2 ^ v.scales.length * (scaleAt v.scales 0).resolution.z⟩ ∧
    (∃ rest,
      (downsample_cloudvolume v data r dsShape).events =
        DsEvent.addScaleEv ⟨2 ^ v.scales.length, 2 ^ v.scales.length, 2 ^ v.scales.length⟩
            (chunkAt v.scales (v.scales.length - 1)) ::
          DsEvent.commitInfoEv :: rest ∧
      ∀ e ∈ rest, e = DsEvent.readDataEv (v.scales.length - 1) ∨
        ∃ sh, e = DsEvent.writeDataEv v.scales.length sh) ∧
    (data = none →
      DsEvent.readDataEv (v.scales.length - 1) ∈
        (downsample_cloudvolume v data r dsShape).events) := by
  have hlen : 0 < v.scales.length := List.length_pos.mpr hs
  have hexp : v.scales.length - 1 + 1 = v.scales.length := by omega
  refine ⟨?_, ?_, rfl, ?_, ?_, ?_⟩
  · rw [downsample_vol_eq]
  · rw [downsample_vol_eq]
  · simp only [newDownsampleScale, mkScale, hexp]
  · cases data with
    | none =>
      simp only [downsample_cloudvolume, hexp, List.cons_append, List.nil_append,
        List.singleton_append]
      split
      · refine ⟨[DsEvent.readDataEv (v.scales.length - 1)], rfl, ?_⟩
        intro e he
        simp only [List.mem_singleton] at he
        exact Or.inl he
      · split
        · refine ⟨[DsEvent.readDataEv (v.scales.length - 1)], rfl, ?_⟩
          intro e he
          simp only [List.mem_singleton] at he
          exact Or.inl he
        · split
          · refine ⟨[DsEvent.readDataEv (v.scales.length - 1)], rfl, ?_⟩
            intro e he
            simp only [List.mem_singleton] at he
            exact Or.inl he
          · refine ⟨_, rfl, ?_⟩
            intro e he
            simp only [List.mem_cons, List.mem_singleton, List.not_mem_nil, or_false] at he
            rcases he with rfl | rfl
            · exact Or.inl rfl
            · exact Or.inr ⟨_, rfl⟩
    | some d0 =>
      simp only [downsample_cloudvolume, hexp, List.cons_append, List.nil_append,
        List.singleton_append]
      split
      · exact ⟨[], rfl, fun e he => absurd he (List.not_mem_nil e)⟩
      · split
        · exact ⟨[], rfl, fun e he => absurd he (List.not_mem_nil e)⟩
        · split
          · exact ⟨[], rfl, fun e he => absurd he (List.not_mem_nil e)⟩
          · refine ⟨_, rfl, ?_⟩
            intro e he
            simp only [List.mem_singleton] at he
            exact Or.inr ⟨_, he⟩
  · cases data with
    | none =>
      intro _
      simp only [downsample_cloudvolume, hexp, List.cons_append, List.nil_append,
        List.singleton_append]
      split
      · simp
      · split
        · simp
        · split
          · simp
          · simp
    | some d0 =>
      intro h
      exact Option.noConfusion h

/-- Witness for C4 at a concrete one-mip volume with no caller-supplied
data. -/
theorem downsample_registers_and_orders_witness :
    sampleVol.scales ≠ [] ∧
    ((downsample_cloudvolume sampleVol none true id).vol.scales =
        sampleVol.scales ++ [newDownsampleScale sampleVol] ∧
      (downsample_cloudvolume sampleVol none true id).vol.committedScales =
        sampleVol.scales ++ [newDownsampleScale sampleVol] ∧
      (newDownsampleScale sampleVol).chunkSize =
        chunkAt sampleVol.scales (sampleVol.scales.length - 1) ∧
      (newDownsampleScale sampleVol).resolution =
        ⟨2 ^ sampleVol.scales.length * (scaleAt sampleVol.scales 0).resolution.x,
          2 ^ sampleVol.scales.length * (scaleAt sampleVol.scales 0).resolution.y,
          2 ^ sampleVol.scales.length * (scaleAt sampleVol.scales 0).resolution.z⟩ ∧
      (∃ rest,
        (downsample_cloudvolume sampleVol none true id).events =
          DsEvent.addScaleEv
              ⟨2 ^ sampleVol.scales.length, 2 ^ sampleVol.scales.length,
                2 ^ sampleVol.scales.length⟩
              (chunkAt sampleVol.scales (sampleVol.scales.length - 1)) ::
            DsEvent.commitInfoEv :: rest ∧
        ∀ e ∈ rest, e = DsEvent.readDataEv (sampleVol.scales.length - 1) ∨
          ∃ sh, e = DsEvent.writeDataEv sampleVol.scales.length sh) ∧
      (none = (none : Option Triple) →
        DsEvent.readDataEv (sampleVol.scales.length - 1) ∈
          (downsample_cloudvolume sampleVol none true id).events)) :=
  ⟨by decide, downsample_registers_and_orders sampleVol none true id (by decide)⟩

/-- C6: mesh_cloudvolume with a save_to_filename writes the (unscaled,
voxel-space) mesh to disk and returns the filename, not a mesh object;
without one it returns the mesh object whose vertices are the extracted
voxel-space vertices multiplied componentwise by the volume's resolution
at the chosen mip, and writes nothing to disk. -/
theorem mesh_cloudvolume_return_modes (v : Vol) (mipArg : Option Nat) (fn : List Char)
    (extract : Nat → Except MeshErr Mesh) (mesh : Mesh)
    (hx : extract (mipArg.getD (v.scales.length - 1)) = .ok mesh) :
    (mesh_cloudvolume v mipArg (some fn) extract).result = .ok (.savedFilename fn) ∧
    (mesh_cloudvolume v mipArg (some fn) extract).exported = some (fn, mesh) ∧
    (mesh_cloudvolume v mipArg none extract).result = .ok (.meshObj
      ⟨mesh.vertices.map
          (scaleVertex (scaleAt v.scales (mipArg.getD (v.scales.length - 1))).resolution),
        mesh.faces⟩) ∧
    (mesh_cloudvolume v mipArg none extract).exported = none := by
  refine ⟨?_, ?_, ?_, ?_⟩ <;> simp [mesh_cloudvolume, hx]

/-- Witness for C6 at a concrete volume, mip 0, and a one-vertex mesh. -/
theorem mesh_cloudvolume_return_modes_witness :
    sampleExtract ((some 0).getD (sampleVol.scales.length - 1)) = .ok sampleMesh ∧
    ((mesh_cloudvolume sampleVol (some 0) (some ("m.stl".toList)) sampleExtract).result =
        .ok (.savedFilename ("m.stl".toList)) ∧
      (mesh_cloudvolume sampleVol (some 0) (some ("m.stl".toList)) sampleExtract).exported =
        some (("m.stl".toList), sampleMesh) ∧
      (mesh_cloudvolume sampleVol (some 0) none sampleExtract).result = .ok (.meshObj
        ⟨sampleMesh.vertices.map
            (scaleVertex (scaleAt sampleVol.scales ((some 0).getD
              (sampleVol.scales.length - 1))).resolution),
          sampleMesh.faces⟩) ∧
      (mesh_cloudvolume sampleVol (some 0) none sampleExtract).exported = none) :=
  ⟨rfl, mesh_cloudvolume_return_modes sampleVol (some 0) ("m.stl".toList) sampleExtract
    sampleMesh rfl⟩

/-- C7: push_mesh with overwrite false and an existing mesh under the
same id fails with the already-exists error, whose message contains both
the mesh id and the volume path, and performs no upload; with overwrite
true the existence check is skipped and the (scale_by-scaled) mesh is
uploaded. -/
theorem push_mesh_id_collision (vol : SegVol) (mesh : MeshLike) (meshId : Nat) (s : Int)
    (cmp : Bool) (vs : List VecZ)
    (hseg : vol.layer_type = "segmentation")
    (hmem : meshId ∈ vol.meshIds)
    (hvs : mesh.vertices = some vs) :
    (push_mesh vol mesh meshId s cmp false =
        .error (.alreadyExists (alreadyExistsMsg meshId vol.cloudpath)) ∧
      (∃ p q, alreadyExistsMsg meshId vol.cloudpath = p ++ (Nat.repr meshId).toList ++ q) ∧
      (∃ p q, alreadyExistsMsg meshId vol.cloudpath = p ++ vol.cloudpath ++ q)) ∧
    push_mesh vol mesh meshId s cmp true =
      .ok [PushEvent.uploadMesh meshId (vs.map (scaleByFactor s)) mesh.faces cmp] := by
  refine ⟨⟨?_, ?_, ?_⟩, ?_⟩
  · simp [push_mesh, hseg, hmem]
  · exact ⟨"A mesh with id ".toList,
      (" already exists in the volume ".toList) ++ vol.cloudpath ++
        (". If you want to overwrite it, set overwrite=True.".toList),
      by simp [alreadyExistsMsg]⟩
  · exact ⟨("A mesh with id ".toList) ++ (Nat.repr meshId).toList ++
        (" already exists in the volume ".toList),
      (". If you want to overwrite it, set overwrite=True.".toList),
      by simp [alreadyExistsMsg]⟩
  · simp [push_mesh, hseg, hvs]

/-- Witness for C7 at a concrete segmentation volume already holding mesh
id 42. -/
theorem push_mesh_id_collision_witness :
    (sampleSegVol.layer_type = "segmentation" ∧ 42 ∈ sampleSegVol.meshIds ∧
      sampleMeshLike.vertices = some [⟨1, 0, 0⟩]) ∧
    ((push_mesh sampleSegVol sampleMeshLike 42 2 true false =
        .error (.alreadyExists (alreadyExistsMsg 42 sampleSegVol.cloudpath)) ∧
      (∃ p q, alreadyExistsMsg 42 sampleSegVol.cloudpath = p ++ (Nat.repr 42).toList ++ q) ∧
      (∃ p q, alreadyExistsMsg 42 sampleSegVol.cloudpath = p ++ sampleSegVol.cloudpath ++ q)) ∧
      push_mesh sampleSegVol sampleMeshLike 42 2 true true =
        .ok [PushEvent.uploadMesh 42 ([⟨1, 0, 0⟩].map (scaleByFactor 2))
          sampleMeshLike.faces true]) :=
  ⟨⟨rfl, by decide, rfl⟩,
    push_mesh_id_collision sampleSegVol sampleMeshLike 42 2 true [⟨1, 0, 0⟩] rfl (by decide) rfl⟩

/-- C8: the resolved import metadata is the hardcoded defaults overlaid
by the file-provided JSON object key by key (absent keys keep their
defaults; with no metadata file the defaults are used unmodified), and
the resolved description always ends up containing the source-folder
placeholder: it is left alone when it already contains the token and gets
the placeholder text appended otherwise. -/
theorem tifs_metadata_layering (fm : String → Option JVal) (hok : descrOk fm = true) :
    (∃ r, tifs_metadata (some fm) = .ok r ∧
      (∀ k, k ≠ "description" → r k = (fm k).elim (default_metadata k) some) ∧
      (∃ d, r "description" = some (.str d) ∧ containsSub placeholderChars d = true ∧
        ((containsSub placeholderChars (mergedDescription fm) = true ∧
            d = mergedDescription fm) ∨
          (containsSub placeholderChars (mergedDescription fm) = false ∧
            d = mergedDescription fm ++ appendedChars)))) ∧
    tifs_metadata none = .ok default_metadata := by
  constructor
  · rcases hfd : fm "description" with _ | jv
    · have hmd : mergedDescription fm = defaultDescriptionChars := by
        simp [mergedDescription, hfd]
      have hm : dictUpdate default_metadata fm "description" =
          some (.str defaultDescriptionChars) := by
        simp only [dictUpdate, hfd, Option.elim]
        rfl
      have hc : containsSub placeholderChars defaultDescriptionChars = true := by
        decide
      refine ⟨dictUpdate default_metadata fm, ?_, fun k _ => rfl, ?_⟩
      · simp [tifs_metadata, hm, hc]
      · exact ⟨_, hm, hc, Or.inl ⟨by rw [hmd]; exact hc, hmd.symm⟩⟩
    · rcases jv with s | n | b | l
      · have hm : dictUpdate default_metadata fm "description" = some (.str s) := by
          simp only [dictUpdate, hfd, Option.elim]
        have hmd : mergedDescription fm = s := by
          simp [mergedDescription, hfd]
        cases hc : containsSub placeholderChars s
        · refine ⟨fun k => if k = "description" then some (.str (s ++ appendedChars))
              else dictUpdate default_metadata fm k, ?_, ?_, ?_⟩
          · simp [tifs_metadata, hm, hc]
          · intro k hk
            simp only [if_neg hk]
            rfl
          · refine ⟨s ++ appendedChars, by simp, containsSub_append_appended s,
              Or.inr ⟨?_, ?_⟩⟩
            · rw [hmd]
              exact hc
            · rw [hmd]
        · refine ⟨dictUpdate default_metadata fm, ?_, fun k _ => rfl, ?_⟩
          · simp [tifs_metadata, hm, hc]
          · exact ⟨s, hm, hc, Or.inl ⟨by rw [hmd]; exact hc, hmd.symm⟩⟩
      · simp [descrOk, hfd] at hok
      · simp [descrOk, hfd] at hok
      · simp [descrOk, hfd] at hok
  · have hdd : default_metadata "description" = some (.str defaultDescriptionChars) := rfl
    have hc : containsSub placeholderChars defaultDescriptionChars = true := by
      decide
    simp [tifs_metadata, hdd, hc]

/-- Witness for C8 at a concrete metadata file that overrides chunk_size
and supplies a description lacking the placeholder. -/
theorem tifs_metadata_layering_witness :
    descrOk sampleFileMeta = true ∧
    ((∃ r, tifs_metadata (some sampleFileMeta) = .ok r ∧
      (∀ k, k ≠ "description" → r k = (sampleFileMeta k).elim (default_metadata k) some) ∧
      (∃ d, r "description" = some (.str d) ∧ containsSub placeholderChars d = true ∧
        ((containsSub placeholderChars (mergedDescription sampleFileMeta) = true ∧
            d = mergedDescription sampleFileMeta) ∨
          (containsSub placeholderChars (mergedDescription sampleFileMeta) = false ∧
            d = mergedDescription sampleFileMeta ++ appendedChars)))) ∧
      tifs_metadata none = .ok default_metadata) :=
  ⟨rfl, tifs_metadata_layering sampleFileMeta rfl⟩

/-- C10: compress_raw_cloudvolume creates the target info with layer_type
hardcoded to image and encoding hardcoded to jpeg, and takes exactly the
channel count, data type, resolution, voxel offset, chunk size, and
volume size from the source (whose encoding must be raw to pass the
assertion; its layer_type is never consulted). -/
theorem compress_raw_target_info_fields (src : VolInfo) (h : src.encoding = "raw") :
    ∃ t, compress_raw_target_info src = .ok t ∧
      t.layer_type = "image" ∧ t.encoding = "jpeg" ∧
      t.num_channels = src.num_channels ∧ t.data_type = src.data_type ∧
      t.resolution = src.resolution ∧ t.voxel_offset = src.voxel_offset ∧
      t.chunk_size = src.chunk_size ∧ t.volume_size = src.volume_size := by
  refine ⟨⟨src.num_channels, "image", src.data_type, "jpeg", src.resolution, src.voxel_offset,
      src.chunk_size, src.volume_size⟩, ?_, rfl, rfl, rfl, rfl, rfl, rfl, rfl, rfl⟩
  simp [compress_raw_target_info, h]

/-- Witness for C10 at a concrete raw source whose layer_type is
segmentation, showing the target layer_type is image regardless. -/
theorem compress_raw_target_info_fields_witness :
    sampleRawInfo.encoding = "raw" ∧
    (∃ t, compress_raw_target_info sampleRawInfo = .ok t ∧
      t.layer_type = "image" ∧ t.encoding = "jpeg" ∧
      t.num_channels = sampleRawInfo.num_channels ∧ t.data_type = sampleRawInfo.data_type ∧
      t.resolution = sampleRawInfo.resolution ∧ t.voxel_offset = sampleRawInfo.voxel_offset ∧
      t.chunk_size = sampleRawInfo.chunk_size ∧ t.volume_size = sampleRawInfo.volume_size) :=
  ⟨rfl, compress_raw_target_info_fields sampleRawInfo rfl⟩

end BikiniBottom
